import Mathlib

/-!
Verification of the alignment/snap-guide engine of the "anywhere" note canvas
(`src/alignment.ts`, class `AlignmentSystem`).

Coordinates are modelled as rationals (`ℚ`), the idealisation of the
JavaScript numbers that flow through the engine (all positions entering the
engine are produced by `parseInt` and integer pointer deltas, and the only
division is the exact halving used for centers).

DOM inputs are modelled by `NoteElem`: `ref` stands for the object identity
of the underlying `HTMLDivElement` (the `note === draggedNote` comparison in
the source is reference equality), `styleLeft`/`styleTop` are the results of
`parseInt(note.style.left)` / `parseInt(note.style.top)` with `none`
standing for `NaN` (an unparsable string), and `offsetWidth`/`offsetHeight`
are the rendered sizes.

The canvas is modelled by the list of line segments currently drawn on it:
`clearRect` over the full canvas empties it, and each guide stroke appends
one `DrawCmd`.  The mutable fields of `AlignmentSystem` (threshold, stored
guides, canvas, enabled flag) form the state; methods that mutate the
instance are state transformers.
-/

namespace Anywhere

/-- Guide orientation, from the `type: 'vertical' | 'horizontal'` field of
`AlignmentGuide` in `alignment.ts`. -/
inductive GuideType where
  | vertical
  | horizontal
deriving DecidableEq, Repr

/-- The `AlignmentGuide` record of `alignment.ts`. -/
structure AlignmentGuide where
  type : GuideType
  position : ℚ
  strength : ℚ
  sourceId : String
deriving DecidableEq, Repr

/-- The `SnapResult` record of `alignment.ts` (lines 20-25): a single combined
`snapped` flag, the two deltas and the guide list. -/
structure SnapResult where
  snapped : Bool
  deltaX : ℚ
  deltaY : ℚ
  guides : List AlignmentGuide
deriving DecidableEq, Repr

/-- The `NoteBounds` record of `alignment.ts` (lines 1-11). -/
structure NoteBounds where
  id : String
  left : ℚ
  top : ℚ
  right : ℚ
  bottom : ℚ
  width : ℚ
  height : ℚ
  centerX : ℚ
  centerY : ℚ
deriving DecidableEq, Repr

/-- A DOM note element as read by the alignment system.  `ref` models the
object identity of the `HTMLDivElement` (used by the `note === draggedNote`
check); `styleLeft`/`styleTop` model `parseInt(note.style.left)` and
`parseInt(note.style.top)`, with `none` standing for `NaN`. -/
structure NoteElem where
  ref : Nat
  id : String
  styleLeft : Option Int
  styleTop : Option Int
  offsetWidth : ℚ
  offsetHeight : ℚ
deriving DecidableEq, Repr

/-- One line segment drawn on the guides canvas: a vertical dashed line from
`(x, 0)` to `(x, canvasHeight)`, or a horizontal one from `(0, y)` to
`(canvasWidth, y)` (renderGuides, lines 243-251). -/
inductive DrawCmd where
  | vline (x : ℚ) (canvasHeight : ℚ)
  | hline (y : ℚ) (canvasWidth : ℚ)
deriving DecidableEq, Repr

/-- The guides overlay canvas: its dimensions and the segments currently
drawn on it (`clearRect` over the full canvas empties `content`). -/
structure Canvas where
  width : ℚ
  height : ℚ
  content : List DrawCmd
deriving DecidableEq, Repr

/-- The mutable fields of class `AlignmentSystem` (lines 27-32):
`snapThreshold` (initialised to 4), the stored `guides` array, the canvas,
and the `enabled` flag. -/
structure AlignmentSystem where
  snapThreshold : ℚ
  guides : List AlignmentGuide
  canvas : Canvas
  enabled : Bool
deriving DecidableEq, Repr

/-- Models `parseInt(note.style.left) || 0` (lines 89, 91, 95): a `NaN` parse
result is coerced to `0`. -/
def parsedLeft (note : NoteElem) : ℚ :=
  ((note.styleLeft.getD 0 : Int) : ℚ)

/-- Models `parseInt(note.style.top) || 0` (lines 90, 92, 96). -/
def parsedTop (note : NoteElem) : ℚ :=
  ((note.styleTop.getD 0 : Int) : ℚ)

/-- The `draggedBounds` record built in `calculateSnap` (lines 71-81) from
the dragged element and the requested position `(currentX, currentY)`. -/
def draggedBoundsOf (note : NoteElem) (currentX currentY : ℚ) : NoteBounds :=
  { id := note.id
    left := currentX
    top := currentY
    right := currentX + note.offsetWidth
    bottom := currentY + note.offsetHeight
    width := note.offsetWidth
    height := note.offsetHeight
    centerX := currentX + note.offsetWidth / 2
    centerY := currentY + note.offsetHeight / 2 }

/-- The `targetBounds` record built for each candidate note (lines 87-97). -/
def targetBoundsOf (note : NoteElem) : NoteBounds :=
  { id := note.id
    left := parsedLeft note
    top := parsedTop note
    right := parsedLeft note + note.offsetWidth
    bottom := parsedTop note + note.offsetHeight
    width := note.offsetWidth
    height := note.offsetHeight
    centerX := parsedLeft note + note.offsetWidth / 2
    centerY := parsedTop note + note.offsetHeight / 2 }

/-- The vertical if/else-if chain of `calculateSnap` (lines 100-156):
left-to-left, right-to-right, left-to-right, right-to-left,
center-to-center.  The first check whose absolute difference is within the
threshold yields the new `snapX` together with the pushed vertical guide;
`none` when no check is within threshold. -/
def vMatch (thr : ℚ) (db tb : NoteBounds) (srcId : String) :
    Option (ℚ × AlignmentGuide) :=
  if |db.left - tb.left| ≤ thr then
    some (tb.left, ⟨.vertical, tb.left, 1, srcId⟩)
  else if |db.right - tb.right| ≤ thr then
    some (tb.right - db.width, ⟨.vertical, tb.right, 1, srcId⟩)
  else if |db.left - tb.right| ≤ thr then
    some (tb.right, ⟨.vertical, tb.right, 1, srcId⟩)
  else if |db.right - tb.left| ≤ thr then
    some (tb.left - db.width, ⟨.vertical, tb.left, 1, srcId⟩)
  else if |db.centerX - tb.centerX| ≤ thr then
    some (tb.centerX - db.width / 2, ⟨.vertical, tb.centerX, 1, srcId⟩)
  else
    none

/-- The horizontal if/else-if chain of `calculateSnap` (lines 159-215):
top-to-top, bottom-to-bottom, top-to-bottom, bottom-to-top,
center-to-center. -/
def hMatch (thr : ℚ) (db tb : NoteBounds) (srcId : String) :
    Option (ℚ × AlignmentGuide) :=
  if |db.top - tb.top| ≤ thr then
    some (tb.top, ⟨.horizontal, tb.top, 1, srcId⟩)
  else if |db.bottom - tb.bottom| ≤ thr then
    some (tb.bottom - db.height, ⟨.horizontal, tb.bottom, 1, srcId⟩)
  else if |db.top - tb.bottom| ≤ thr then
    some (tb.bottom, ⟨.horizontal, tb.bottom, 1, srcId⟩)
  else if |db.bottom - tb.top| ≤ thr then
    some (tb.top - db.height, ⟨.horizontal, tb.top, 1, srcId⟩)
  else if |db.centerY - tb.centerY| ≤ thr then
    some (tb.centerY - db.height / 2, ⟨.horizontal, tb.centerY, 1, srcId⟩)
  else
    none

/-- The mutable accumulator of the `allNotes.forEach` loop: `snapX`,
`snapY`, `snappedX`, `snappedY` and the `this.guides` array being pushed
to. -/
structure ScanAcc where
  snapX : ℚ
  snapY : ℚ
  snappedX : Bool
  snappedY : Bool
  guides : List AlignmentGuide
deriving DecidableEq, Repr

/-- The `if (!snappedX) { ... }` vertical block (lines 100-156) applied for
one candidate note. -/
def vApply (thr : ℚ) (db : NoteBounds) (note : NoteElem) (acc : ScanAcc) :
    ScanAcc :=
  if acc.snappedX then acc
  else
    match vMatch thr db (targetBoundsOf note) note.id with
    | none => acc
    | some (sx, g) =>
        { acc with snapX := sx, snappedX := true, guides := acc.guides ++ [g] }

/-- The `if (!snappedY) { ... }` horizontal block (lines 159-215) applied
for one candidate note. -/
def hApply (thr : ℚ) (db : NoteBounds) (note : NoteElem) (acc : ScanAcc) :
    ScanAcc :=
  if acc.snappedY then acc
  else
    match hMatch thr db (targetBoundsOf note) note.id with
    | none => acc
    | some (sy, g) =>
        { acc with snapY := sy, snappedY := true, guides := acc.guides ++ [g] }

/-- One iteration of the `allNotes.forEach` loop (lines 84-216): skip the
dragged element itself (`note === draggedNote`, reference equality), then
run the vertical block followed by the horizontal block. -/
def stepNote (thr : ℚ) (draggedNote : NoteElem) (db : NoteBounds)
    (acc : ScanAcc) (note : NoteElem) : ScanAcc :=
  if note.ref == draggedNote.ref then acc
  else hApply thr db note (vApply thr db note acc)

/-- The stroke drawn for one guide by `renderGuides` (lines 243-251). -/
def guideDraw (canvas : Canvas) (g : AlignmentGuide) : DrawCmd :=
  match g.type with
  | .vertical => .vline g.position canvas.height
  | .horizontal => .hline g.position canvas.width

/-- Method `renderGuides` (lines 232-255): clear the whole canvas, then stroke one
dashed line per stored guide. -/
def renderGuides (st : AlignmentSystem) : AlignmentSystem :=
  { st with
      canvas := { st.canvas with content := st.guides.map (guideDraw st.canvas) } }

/-- Method `clearGuides` (lines 257-260): empty the stored guide list and clear
the whole canvas. -/
def clearGuides (st : AlignmentSystem) : AlignmentSystem :=
  { st with guides := [], canvas := { st.canvas with content := [] } }

/-- Method `setEnabled` (lines 48-53). -/
def setEnabled (st : AlignmentSystem) (enabled : Bool) : AlignmentSystem :=
  let st1 := { st with enabled := enabled }
  if enabled then st1 else clearGuides st1

/-- Method `calculateSnap` (lines 55-230).  Returns the state of the
`AlignmentSystem` instance after the call together with the returned
`SnapResult`: when disabled it returns the no-op result without touching
the state; otherwise it resets `this.guides`, folds the per-note loop over
`allNotes`, stores the collected guides, and renders them when anything
snapped. -/
def calculateSnap (st : AlignmentSystem) (draggedNote : NoteElem)
    (allNotes : List NoteElem) (currentX currentY : ℚ) :
    AlignmentSystem × SnapResult :=
  if !st.enabled then
    (st, { snapped := false, deltaX := 0, deltaY := 0, guides := [] })
  else
    let db := draggedBoundsOf draggedNote currentX currentY
    let acc0 : ScanAcc :=
      { snapX := currentX, snapY := currentY
        snappedX := false, snappedY := false, guides := [] }
    let acc := allNotes.foldl (stepNote st.snapThreshold draggedNote db) acc0
    let result : SnapResult :=
      { snapped := acc.snappedX || acc.snappedY
        deltaX := acc.snapX - currentX
        deltaY := acc.snapY - currentY
        guides := acc.guides }
    let st1 := { st with guides := acc.guides }
    let st2 := if result.snapped then renderGuides st1 else st1
    (st2, result)

/-! ### The fixed check order, stated as data

`VKind`/`HKind` name the five comparison kinds of each axis, in the order
the source's if/else-if chain tries them.  `vMatch_eq_firstVKind` proves
that the chain is exactly "first kind in that order whose absolute
difference is within threshold". -/

/-- The five vertical comparison kinds, listed in source order. -/
inductive VKind where
  | ll
  | rr
  | lr
  | rl
  | cc
deriving DecidableEq, Repr

/-- The five horizontal comparison kinds, listed in source order. -/
inductive HKind where
  | tt
  | bb
  | tb
  | bt
  | cc
deriving DecidableEq, Repr

/-- The absolute coordinate difference a vertical check compares against
the threshold. -/
def vDiff (db tb : NoteBounds) : VKind → ℚ
  | .ll => |db.left - tb.left|
  | .rr => |db.right - tb.right|
  | .lr => |db.left - tb.right|
  | .rl => |db.right - tb.left|
  | .cc => |db.centerX - tb.centerX|

/-- The absolute coordinate difference a horizontal check compares against
the threshold. -/
def hDiff (db tb : NoteBounds) : HKind → ℚ
  | .tt => |db.top - tb.top|
  | .bb => |db.bottom - tb.bottom|
  | .tb => |db.top - tb.bottom|
  | .bt => |db.bottom - tb.top|
  | .cc => |db.centerY - tb.centerY|

/-- New `snapX` and pushed guide produced by a vertical check kind. -/
def vSnapData (db tb : NoteBounds) (srcId : String) :
    VKind → ℚ × AlignmentGuide
  | .ll => (tb.left, ⟨.vertical, tb.left, 1, srcId⟩)
  | .rr => (tb.right - db.width, ⟨.vertical, tb.right, 1, srcId⟩)
  | .lr => (tb.right, ⟨.vertical, tb.right, 1, srcId⟩)
  | .rl => (tb.left - db.width, ⟨.vertical, tb.left, 1, srcId⟩)
  | .cc => (tb.centerX - db.width / 2, ⟨.vertical, tb.centerX, 1, srcId⟩)

/-- New `snapY` and pushed guide produced by a horizontal check kind. -/
def hSnapData (db tb : NoteBounds) (srcId : String) :
    HKind → ℚ × AlignmentGuide
  | .tt => (tb.top, ⟨.horizontal, tb.top, 1, srcId⟩)
  | .bb => (tb.bottom - db.height, ⟨.horizontal, tb.bottom, 1, srcId⟩)
  | .tb => (tb.bottom, ⟨.horizontal, tb.bottom, 1, srcId⟩)
  | .bt => (tb.top - db.height, ⟨.horizontal, tb.top, 1, srcId⟩)
  | .cc => (tb.centerY - db.height / 2, ⟨.horizontal, tb.centerY, 1, srcId⟩)

/-- The fixed vertical check order of the source. -/
def vKindOrder : List VKind := [.ll, .rr, .lr, .rl, .cc]

/-- The fixed horizontal check order of the source. -/
def hKindOrder : List HKind := [.tt, .bb, .tb, .bt, .cc]

/-- First vertical check kind (in source order) within threshold. -/
def firstVKind (thr : ℚ) (db tb : NoteBounds) : Option VKind :=
  vKindOrder.find? (fun k => decide (vDiff db tb k ≤ thr))

/-- First horizontal check kind (in source order) within threshold. -/
def firstHKind (thr : ℚ) (db tb : NoteBounds) : Option HKind :=
  hKindOrder.find? (fun k => decide (hDiff db tb k ≤ thr))

/-- First candidate (in supplied order, skipping the dragged element) that
produces a vertical match, together with that match. -/
def firstVerticalMatch (thr : ℚ) (dragged : NoteElem) (db : NoteBounds)
    (cands : List NoteElem) : Option (ℚ × AlignmentGuide) :=
  (cands.filter (fun n => !(n.ref == dragged.ref))).findSome?
    (fun n => vMatch thr db (targetBoundsOf n) n.id)

/-- First candidate (in supplied order, skipping the dragged element) that
produces a horizontal match, together with that match. -/
def firstHorizontalMatch (thr : ℚ) (dragged : NoteElem) (db : NoteBounds)
    (cands : List NoteElem) : Option (ℚ × AlignmentGuide) :=
  (cands.filter (fun n => !(n.ref == dragged.ref))).findSome?
    (fun n => hMatch thr db (targetBoundsOf n) n.id)

/-- Test for a vertical guide. -/
def isVG (g : AlignmentGuide) : Bool := g.type == GuideType.vertical

/-- Test for a horizontal guide. -/
def isHG (g : AlignmentGuide) : Bool := g.type == GuideType.horizontal

theorem vMatch_eq_firstVKind (thr : ℚ) (db tb : NoteBounds) (srcId : String) :
    vMatch thr db tb srcId =
      (firstVKind thr db tb).map (vSnapData db tb srcId) := by
  unfold vMatch firstVKind vKindOrder
  by_cases h1 : |db.left - tb.left| ≤ thr
  · simp [List.find?, h1, vDiff, vSnapData]
  by_cases h2 : |db.right - tb.right| ≤ thr
  · simp [List.find?, h1, h2, vDiff, vSnapData]
  by_cases h3 : |db.left - tb.right| ≤ thr
  · simp [List.find?, h1, h2, h3, vDiff, vSnapData]
  by_cases h4 : |db.right - tb.left| ≤ thr
  · simp [List.find?, h1, h2, h3, h4, vDiff, vSnapData]
  by_cases h5 : |db.centerX - tb.centerX| ≤ thr
  · simp [List.find?, h1, h2, h3, h4, h5, vDiff, vSnapData]
  · simp [List.find?, h1, h2, h3, h4, h5, vDiff, vSnapData]

theorem hMatch_eq_firstHKind (thr : ℚ) (db tb : NoteBounds) (srcId : String) :
    hMatch thr db tb srcId =
      (firstHKind thr db tb).map (hSnapData db tb srcId) := by
  unfold hMatch firstHKind hKindOrder
  by_cases h1 : |db.top - tb.top| ≤ thr
  · simp [List.find?, h1, hDiff, hSnapData]
  by_cases h2 : |db.bottom - tb.bottom| ≤ thr
  · simp [List.find?, h1, h2, hDiff, hSnapData]
  by_cases h3 : |db.top - tb.bottom| ≤ thr
  · simp [List.find?, h1, h2, h3, hDiff, hSnapData]
  by_cases h4 : |db.bottom - tb.top| ≤ thr
  · simp [List.find?, h1, h2, h3, h4, hDiff, hSnapData]
  by_cases h5 : |db.centerY - tb.centerY| ≤ thr
  · simp [List.find?, h1, h2, h3, h4, h5, hDiff, hSnapData]
  · simp [List.find?, h1, h2, h3, h4, h5, hDiff, hSnapData]

theorem vMatch_type {thr : ℚ} {db tb : NoteBounds} {srcId : String}
    {p : ℚ × AlignmentGuide} (h : vMatch thr db tb srcId = some p) :
    p.2.type = GuideType.vertical := by
  unfold vMatch at h
  split_ifs at h
  all_goals first
  | exact Option.noConfusion h
  | (injection h with h; subst h; rfl)

theorem hMatch_type {thr : ℚ} {db tb : NoteBounds} {srcId : String}
    {p : ℚ × AlignmentGuide} (h : hMatch thr db tb srcId = some p) :
    p.2.type = GuideType.horizontal := by
  unfold hMatch at h
  split_ifs at h
  all_goals first
  | exact Option.noConfusion h
  | (injection h with h; subst h; rfl)

theorem vMatch_sourceId {thr : ℚ} {db tb : NoteBounds} {srcId : String}
    {p : ℚ × AlignmentGuide} (h : vMatch thr db tb srcId = some p) :
    p.2.sourceId = srcId := by
  unfold vMatch at h
  split_ifs at h
  all_goals first
  | exact Option.noConfusion h
  | (injection h with h; subst h; rfl)

theorem hMatch_sourceId {thr : ℚ} {db tb : NoteBounds} {srcId : String}
    {p : ℚ × AlignmentGuide} (h : hMatch thr db tb srcId = some p) :
    p.2.sourceId = srcId := by
  unfold hMatch at h
  split_ifs at h
  all_goals first
  | exact Option.noConfusion h
  | (injection h with h; subst h; rfl)

theorem vMatch_isSome_iff (thr : ℚ) (db tb : NoteBounds) (srcId : String) :
    (vMatch thr db tb srcId).isSome = true ↔ ∃ k, vDiff db tb k ≤ thr := by
  constructor
  · intro h
    unfold vMatch at h
    split_ifs at h with h1 h2 h3 h4 h5
    · exact ⟨.ll, h1⟩
    · exact ⟨.rr, h2⟩
    · exact ⟨.lr, h3⟩
    · exact ⟨.rl, h4⟩
    · exact ⟨.cc, h5⟩
    · simp at h
  · rintro ⟨k, hk⟩
    unfold vMatch
    cases k <;> simp only [vDiff] at hk <;> split_ifs <;> simp_all

theorem hMatch_isSome_iff (thr : ℚ) (db tb : NoteBounds) (srcId : String) :
    (hMatch thr db tb srcId).isSome = true ↔ ∃ k, hDiff db tb k ≤ thr := by
  constructor
  · intro h
    unfold hMatch at h
    split_ifs at h with h1 h2 h3 h4 h5
    · exact ⟨.tt, h1⟩
    · exact ⟨.bb, h2⟩
    · exact ⟨.tb, h3⟩
    · exact ⟨.bt, h4⟩
    · exact ⟨.cc, h5⟩
    · simp at h
  · rintro ⟨k, hk⟩
    unfold hMatch
    cases k <;> simp only [hDiff] at hk <;> split_ifs <;> simp_all

/-! ### Behaviour of the per-note blocks -/

theorem vApply_of_snappedX (thr : ℚ) (db : NoteBounds) (note : NoteElem)
    (acc : ScanAcc) (h : acc.snappedX = true) :
    vApply thr db note acc = acc := by
  unfold vApply
  simp [h]

theorem hApply_of_snappedY (thr : ℚ) (db : NoteBounds) (note : NoteElem)
    (acc : ScanAcc) (h : acc.snappedY = true) :
    hApply thr db note acc = acc := by
  unfold hApply
  simp [h]

theorem vApply_none (thr : ℚ) (db : NoteBounds) (note : NoteElem)
    (acc : ScanAcc) (hm : vMatch thr db (targetBoundsOf note) note.id = none) :
    vApply thr db note acc = acc := by
  unfold vApply
  split
  · rfl
  · simp [hm]

theorem hApply_none (thr : ℚ) (db : NoteBounds) (note : NoteElem)
    (acc : ScanAcc) (hm : hMatch thr db (targetBoundsOf note) note.id = none) :
    hApply thr db note acc = acc := by
  unfold hApply
  split
  · rfl
  · simp [hm]

theorem vApply_some (thr : ℚ) (db : NoteBounds) (note : NoteElem)
    (acc : ScanAcc) (sx : ℚ) (g : AlignmentGuide) (h : acc.snappedX = false)
    (hm : vMatch thr db (targetBoundsOf note) note.id = some (sx, g)) :
    vApply thr db note acc =
      { acc with snapX := sx, snappedX := true, guides := acc.guides ++ [g] } := by
  unfold vApply
  simp [h, hm]

theorem hApply_some (thr : ℚ) (db : NoteBounds) (note : NoteElem)
    (acc : ScanAcc) (sy : ℚ) (g : AlignmentGuide) (h : acc.snappedY = false)
    (hm : hMatch thr db (targetBoundsOf note) note.id = some (sy, g)) :
    hApply thr db note acc =
      { acc with snapY := sy, snappedY := true, guides := acc.guides ++ [g] } := by
  unfold hApply
  simp [h, hm]

theorem hApply_snapX (thr : ℚ) (db : NoteBounds) (note : NoteElem)
    (acc : ScanAcc) : (hApply thr db note acc).snapX = acc.snapX := by
  unfold hApply
  split
  · rfl
  · split <;> rfl

theorem hApply_snappedX (thr : ℚ) (db : NoteBounds) (note : NoteElem)
    (acc : ScanAcc) : (hApply thr db note acc).snappedX = acc.snappedX := by
  unfold hApply
  split
  · rfl
  · split <;> rfl

theorem vApply_snapY (thr : ℚ) (db : NoteBounds) (note : NoteElem)
    (acc : ScanAcc) : (vApply thr db note acc).snapY = acc.snapY := by
  unfold vApply
  split
  · rfl
  · split <;> rfl

theorem vApply_snappedY (thr : ℚ) (db : NoteBounds) (note : NoteElem)
    (acc : ScanAcc) : (vApply thr db note acc).snappedY = acc.snappedY := by
  unfold vApply
  split
  · rfl
  · split <;> rfl

theorem hApply_filter_isVG (thr : ℚ) (db : NoteBounds) (note : NoteElem)
    (acc : ScanAcc) :
    (hApply thr db note acc).guides.filter isVG = acc.guides.filter isVG := by
  unfold hApply
  by_cases hy : acc.snappedY = true
  · simp [hy]
  · simp only [hy]
    cases hm : hMatch thr db (targetBoundsOf note) note.id with
    | none => simp
    | some p =>
        obtain ⟨sy, g⟩ := p
        have ht : g.type = GuideType.horizontal := hMatch_type hm
        simp [List.filter_append, isVG, ht]

theorem vApply_filter_isHG (thr : ℚ) (db : NoteBounds) (note : NoteElem)
    (acc : ScanAcc) :
    (vApply thr db note acc).guides.filter isHG = acc.guides.filter isHG := by
  unfold vApply
  by_cases hx : acc.snappedX = true
  · simp [hx]
  · simp only [hx]
    cases hm : vMatch thr db (targetBoundsOf note) note.id with
    | none => simp
    | some p =>
        obtain ⟨sx, g⟩ := p
        have ht : g.type = GuideType.vertical := vMatch_type hm
        simp [List.filter_append, isHG, ht]

/-! ### Characterisation of the scan loop, vertical axis -/

theorem foldl_snappedX_true (thr : ℚ) (dr : NoteElem) (db : NoteBounds)
    (cands : List NoteElem) (acc : ScanAcc) (h : acc.snappedX = true) :
    (cands.foldl (stepNote thr dr db) acc).snappedX = true ∧
    (cands.foldl (stepNote thr dr db) acc).snapX = acc.snapX ∧
    (cands.foldl (stepNote thr dr db) acc).guides.filter isVG =
      acc.guides.filter isVG := by
  induction cands generalizing acc with
  | nil => exact ⟨h, rfl, rfl⟩
  | cons n t ih =>
      simp only [List.foldl_cons]
      by_cases hr : (n.ref == dr.ref) = true
      · have hstep : stepNote thr dr db acc n = acc := by simp [stepNote, hr]
        rw [hstep]
        exact ih acc h
      · have hstep : stepNote thr dr db acc n = hApply thr db n acc := by
          simp [stepNote, hr, vApply_of_snappedX thr db n acc h]
        rw [hstep]
        have h1 : (hApply thr db n acc).snappedX = true := by
          rw [hApply_snappedX]
          exact h
        obtain ⟨a, b, c⟩ := ih (hApply thr db n acc) h1
        refine ⟨a, ?_, ?_⟩
        · rw [b, hApply_snapX]
        · rw [c, hApply_filter_isVG]

theorem foldl_vertical (thr : ℚ) (dr : NoteElem) (db : NoteBounds)
    (cands : List NoteElem) (acc : ScanAcc) (h : acc.snappedX = false) :
    ((cands.foldl (stepNote thr dr db) acc).snappedX,
     (cands.foldl (stepNote thr dr db) acc).snapX,
     (cands.foldl (stepNote thr dr db) acc).guides.filter isVG) =
      (match firstVerticalMatch thr dr db cands with
       | some (sx, g) => (true, sx, acc.guides.filter isVG ++ [g])
       | none => (false, acc.snapX, acc.guides.filter isVG)) := by
  induction cands generalizing acc with
  | nil => simp [firstVerticalMatch, h]
  | cons n t ih =>
      simp only [List.foldl_cons]
      by_cases hr : (n.ref == dr.ref) = true
      · have hstep : stepNote thr dr db acc n = acc := by simp [stepNote, hr]
        have hfv : firstVerticalMatch thr dr db (n :: t) =
            firstVerticalMatch thr dr db t := by
          simp [firstVerticalMatch, List.filter_cons, hr]
        rw [hstep, hfv]
        exact ih acc h
      · have hstep : stepNote thr dr db acc n =
            hApply thr db n (vApply thr db n acc) := by
          simp [stepNote, hr]
        have hfv : firstVerticalMatch thr dr db (n :: t) =
            (match vMatch thr db (targetBoundsOf n) n.id with
             | some p => some p
             | none => firstVerticalMatch thr dr db t) := by
          simp [firstVerticalMatch, List.filter_cons, hr]
          cases hx : vMatch thr db (targetBoundsOf n) n.id <;> simp [hx]
        cases hm : vMatch thr db (targetBoundsOf n) n.id with
        | some p =>
            obtain ⟨sx, g⟩ := p
            have hgv : isVG g = true := by
              have ht : g.type = GuideType.vertical := vMatch_type hm
              simp [isVG, ht]
            have hfv2 : firstVerticalMatch thr dr db (n :: t) = some (sx, g) := by
              rw [hfv, hm]
            have hva := vApply_some thr db n acc sx g h hm
            have h1 : (hApply thr db n
                { acc with
                    snapX := sx
                    snappedX := true
                    guides := acc.guides ++ [g] }).snappedX = true := by
              rw [hApply_snappedX]
            obtain ⟨a, b, c⟩ :=
              foldl_snappedX_true thr dr db t
                (hApply thr db n
                  { acc with
                      snapX := sx
                      snappedX := true
                      guides := acc.guides ++ [g] }) h1
            rw [hstep, hva, hfv2, a, b, c, hApply_snapX, hApply_filter_isVG]
            simp [List.filter_append, hgv]
        | none =>
            have hfv2 : firstVerticalMatch thr dr db (n :: t) =
                firstVerticalMatch thr dr db t := by
              rw [hfv, hm]
            have hva := vApply_none thr db n acc hm
            have h1 : (hApply thr db n acc).snappedX = false := by
              rw [hApply_snappedX]
              exact h
            have hrec := ih (hApply thr db n acc) h1
            rw [hApply_snapX, hApply_filter_isVG] at hrec
            rw [hstep, hva, hfv2]
            exact hrec

/-! ### Characterisation of the scan loop, horizontal axis -/

theorem foldl_snappedY_true (thr : ℚ) (dr : NoteElem) (db : NoteBounds)
    (cands : List NoteElem) (acc : ScanAcc) (h : acc.snappedY = true) :
    (cands.foldl (stepNote thr dr db) acc).snappedY = true ∧
    (cands.foldl (stepNote thr dr db) acc).snapY = acc.snapY ∧
    (cands.foldl (stepNote thr dr db) acc).guides.filter isHG =
      acc.guides.filter isHG := by
  induction cands generalizing acc with
  | nil => exact ⟨h, rfl, rfl⟩
  | cons n t ih =>
      simp only [List.foldl_cons]
      by_cases hr : (n.ref == dr.ref) = true
      · have hstep : stepNote thr dr db acc n = acc := by simp [stepNote, hr]
        rw [hstep]
        exact ih acc h
      · have hy : (vApply thr db n acc).snappedY = true := by
          rw [vApply_snappedY]
          exact h
        have hstep : stepNote thr dr db acc n = vApply thr db n acc := by
          simp [stepNote, hr, hApply_of_snappedY thr db n (vApply thr db n acc) hy]
        rw [hstep]
        obtain ⟨a, b, c⟩ := ih (vApply thr db n acc) hy
        refine ⟨a, ?_, ?_⟩
        · rw [b, vApply_snapY]
        · rw [c, vApply_filter_isHG]

theorem foldl_horizontal (thr : ℚ) (dr : NoteElem) (db : NoteBounds)
    (cands : List NoteElem) (acc : ScanAcc) (h : acc.snappedY = false) :
    ((cands.foldl (stepNote thr dr db) acc).snappedY,
     (cands.foldl (stepNote thr dr db) acc).snapY,
     (cands.foldl (stepNote thr dr db) acc).guides.filter isHG) =
      (match firstHorizontalMatch thr dr db cands with
       | some (sy, g) => (true, sy, acc.guides.filter isHG ++ [g])
       | none => (false, acc.snapY, acc.guides.filter isHG)) := by
  induction cands generalizing acc with
  | nil => simp [firstHorizontalMatch, h]
  | cons n t ih =>
      simp only [List.foldl_cons]
      by_cases hr : (n.ref == dr.ref) = true
      · have hstep : stepNote thr dr db acc n = acc := by simp [stepNote, hr]
        have hfh : firstHorizontalMatch thr dr db (n :: t) =
            firstHorizontalMatch thr dr db t := by
          simp [firstHorizontalMatch, List.filter_cons, hr]
        rw [hstep, hfh]
        exact ih acc h
      · have hstep : stepNote thr dr db acc n =
            hApply thr db n (vApply thr db n acc) := by
          simp [stepNote, hr]
        have hfh : firstHorizontalMatch thr dr db (n :: t) =
            (match hMatch thr db (targetBoundsOf n) n.id with
             | some p => some p
             | none => firstHorizontalMatch thr dr db t) := by
          simp [firstHorizontalMatch, List.filter_cons, hr]
          cases hx : hMatch thr db (targetBoundsOf n) n.id <;> simp [hx]
        have hy : (vApply thr db n acc).snappedY = false := by
          rw [vApply_snappedY]
          exact h
        cases hm : hMatch thr db (targetBoundsOf n) n.id with
        | some p =>
            obtain ⟨sy, g⟩ := p
            have hgh : isHG g = true := by
              have ht : g.type = GuideType.horizontal := hMatch_type hm
              simp [isHG, ht]
            have hfh2 : firstHorizontalMatch thr dr db (n :: t) = some (sy, g) := by
              rw [hfh, hm]
            have hha := hApply_some thr db n (vApply thr db n acc) sy g hy hm
            have h1 : ({ vApply thr db n acc with
                snapY := sy
                snappedY := true
                guides := (vApply thr db n acc).guides ++ [g] } : ScanAcc).snappedY
                  = true := rfl
            obtain ⟨a, b, c⟩ :=
              foldl_snappedY_true thr dr db t
                { vApply thr db n acc with
                    snapY := sy
                    snappedY := true
                    guides := (vApply thr db n acc).guides ++ [g] } h1
            rw [hstep, hha, hfh2, a, b, c]
            simp [List.filter_append, hgh, vApply_filter_isHG]
        | none =>
            have hfh2 : firstHorizontalMatch thr dr db (n :: t) =
                firstHorizontalMatch thr dr db t := by
              rw [hfh, hm]
            have hha := hApply_none thr db n (vApply thr db n acc) hm
            have hrec := ih (vApply thr db n acc) hy
            rw [vApply_snapY, vApply_filter_isHG] at hrec
            rw [hstep, hha, hfh2]
            exact hrec

/-! ### Characterisation of a full `calculateSnap` call -/

/-- The accumulator produced by the `allNotes.forEach` loop of a
`calculateSnap` call (the loop of lines 84-216 run from the initial
`snapX = currentX`, `snapY = currentY`, nothing snapped, no guides). -/
def scanOf (st : AlignmentSystem) (dragged : NoteElem) (cands : List NoteElem)
    (x y : ℚ) : ScanAcc :=
  cands.foldl (stepNote st.snapThreshold dragged (draggedBoundsOf dragged x y))
    { snapX := x
      snapY := y
      snappedX := false
      snappedY := false
      guides := [] }

theorem calculateSnap_disabled (st : AlignmentSystem) (dragged : NoteElem)
    (cands : List NoteElem) (x y : ℚ) (he : st.enabled = false) :
    calculateSnap st dragged cands x y =
      (st, { snapped := false, deltaX := 0, deltaY := 0, guides := [] }) := by
  simp [calculateSnap, he]

theorem calculateSnap_enabled (st : AlignmentSystem) (dragged : NoteElem)
    (cands : List NoteElem) (x y : ℚ) (he : st.enabled = true) :
    calculateSnap st dragged cands x y =
      ((if (scanOf st dragged cands x y).snappedX
            || (scanOf st dragged cands x y).snappedY then
          { st with
              guides := (scanOf st dragged cands x y).guides
              canvas := { st.canvas with
                content := (scanOf st dragged cands x y).guides.map
                  (guideDraw st.canvas) } }
        else { st with guides := (scanOf st dragged cands x y).guides }),
       { snapped := (scanOf st dragged cands x y).snappedX
           || (scanOf st dragged cands x y).snappedY
         deltaX := (scanOf st dragged cands x y).snapX - x
         deltaY := (scanOf st dragged cands x y).snapY - y
         guides := (scanOf st dragged cands x y).guides }) := by
  unfold calculateSnap scanOf renderGuides
  simp only [he, Bool.not_true, Bool.false_eq_true, if_false]

theorem scanOf_vertical (st : AlignmentSystem) (dragged : NoteElem)
    (cands : List NoteElem) (x y : ℚ) :
    ((scanOf st dragged cands x y).snappedX,
     (scanOf st dragged cands x y).snapX,
     (scanOf st dragged cands x y).guides.filter isVG) =
      (match firstVerticalMatch st.snapThreshold dragged
          (draggedBoundsOf dragged x y) cands with
       | some (sx, g) => (true, sx, [g])
       | none => (false, x, [])) := by
  have h := foldl_vertical st.snapThreshold dragged (draggedBoundsOf dragged x y)
    cands
    { snapX := x
      snapY := y
      snappedX := false
      snappedY := false
      guides := [] } rfl
  unfold scanOf
  cases hm : firstVerticalMatch st.snapThreshold dragged
      (draggedBoundsOf dragged x y) cands with
  | none => rw [hm] at h; simpa using h
  | some p => obtain ⟨sx, g⟩ := p; rw [hm] at h; simpa using h

theorem scanOf_horizontal (st : AlignmentSystem) (dragged : NoteElem)
    (cands : List NoteElem) (x y : ℚ) :
    ((scanOf st dragged cands x y).snappedY,
     (scanOf st dragged cands x y).snapY,
     (scanOf st dragged cands x y).guides.filter isHG) =
      (match firstHorizontalMatch st.snapThreshold dragged
          (draggedBoundsOf dragged x y) cands with
       | some (sy, g) => (true, sy, [g])
       | none => (false, y, [])) := by
  have h := foldl_horizontal st.snapThreshold dragged (draggedBoundsOf dragged x y)
    cands
    { snapX := x
      snapY := y
      snappedX := false
      snappedY := false
      guides := [] } rfl
  unfold scanOf
  cases hm : firstHorizontalMatch st.snapThreshold dragged
      (draggedBoundsOf dragged x y) cands with
  | none => rw [hm] at h; simpa using h
  | some p => obtain ⟨sy, g⟩ := p; rw [hm] at h; simpa using h

/-! ### Guides carry only non-dragged sources; skipping is literal -/

theorem vApply_guides_sources (thr : ℚ) (db : NoteBounds) (note : NoteElem)
    (acc : ScanAcc) (g : AlignmentGuide)
    (hg : g ∈ (vApply thr db note acc).guides) :
    g ∈ acc.guides ∨ g.sourceId = note.id := by
  unfold vApply at hg
  by_cases hx : acc.snappedX = true
  · simp [hx] at hg
    exact Or.inl hg
  · simp only [hx] at hg
    cases hm : vMatch thr db (targetBoundsOf note) note.id with
    | none => rw [hm] at hg; exact Or.inl hg
    | some p =>
        rw [hm] at hg
        obtain ⟨sx, gv⟩ := p
        simp at hg
        rcases hg with hg | hg
        · exact Or.inl hg
        · right
          rw [hg]
          exact vMatch_sourceId hm

theorem hApply_guides_sources (thr : ℚ) (db : NoteBounds) (note : NoteElem)
    (acc : ScanAcc) (g : AlignmentGuide)
    (hg : g ∈ (hApply thr db note acc).guides) :
    g ∈ acc.guides ∨ g.sourceId = note.id := by
  unfold hApply at hg
  by_cases hy : acc.snappedY = true
  · simp [hy] at hg
    exact Or.inl hg
  · simp only [hy] at hg
    cases hm : hMatch thr db (targetBoundsOf note) note.id with
    | none => rw [hm] at hg; exact Or.inl hg
    | some p =>
        rw [hm] at hg
        obtain ⟨sy, gh⟩ := p
        simp at hg
        rcases hg with hg | hg
        · exact Or.inl hg
        · right
          rw [hg]
          exact hMatch_sourceId hm

theorem foldl_guides_sources (thr : ℚ) (dr : NoteElem) (db : NoteBounds)
    (cands : List NoteElem) (acc : ScanAcc) (g : AlignmentGuide)
    (hg : g ∈ (cands.foldl (stepNote thr dr db) acc).guides) :
    g ∈ acc.guides ∨
      ∃ n, n ∈ cands ∧ (n.ref == dr.ref) = false ∧ g.sourceId = n.id := by
  induction cands generalizing acc with
  | nil => exact Or.inl hg
  | cons n t ih =>
      simp only [List.foldl_cons] at hg
      rcases ih (stepNote thr dr db acc n) hg with hin | ⟨m, hm1, hm2, hm3⟩
      · by_cases hr : (n.ref == dr.ref) = true
        · rw [show stepNote thr dr db acc n = acc by simp [stepNote, hr]] at hin
          exact Or.inl hin
        · rw [show stepNote thr dr db acc n =
              hApply thr db n (vApply thr db n acc) by simp [stepNote, hr]] at hin
          rcases hApply_guides_sources thr db n (vApply thr db n acc) g hin with
            hin2 | hid
          · rcases vApply_guides_sources thr db n acc g hin2 with hin3 | hid
            · exact Or.inl hin3
            · exact Or.inr ⟨n, List.mem_cons_self n t,
                Bool.not_eq_true _ ▸ (by simpa using hr), hid⟩
          · exact Or.inr ⟨n, List.mem_cons_self n t,
              Bool.not_eq_true _ ▸ (by simpa using hr), hid⟩
      · exact Or.inr ⟨m, List.mem_cons_of_mem n hm1, hm2, hm3⟩

theorem foldl_skip_dragged (thr : ℚ) (dr : NoteElem) (db : NoteBounds)
    (cands : List NoteElem) (acc : ScanAcc) :
    cands.foldl (stepNote thr dr db) acc =
      (cands.filter (fun n => !(n.ref == dr.ref))).foldl (stepNote thr dr db) acc := by
  induction cands generalizing acc with
  | nil => rfl
  | cons n t ih =>
      by_cases hr : (n.ref == dr.ref) = true
      · have hstep : stepNote thr dr db acc n = acc := by simp [stepNote, hr]
        simp only [List.foldl_cons, hstep, List.filter_cons, hr]
        simpa using ih acc
      · simp only [List.foldl_cons, List.filter_cons]
        have : (!(n.ref == dr.ref)) = true := by simpa using hr
        rw [this]
        simp only [if_true, List.foldl_cons]
        exact ih (stepNote thr dr db acc n)

/-- Each guide in a list is vertical or horizontal, so the two filters
partition it. -/
theorem length_filter_vg_add_hg (l : List AlignmentGuide) :
    (l.filter isVG).length + (l.filter isHG).length = l.length := by
  induction l with
  | nil => rfl
  | cons g t ih =>
      cases hg : g.type <;> simp [isVG, isHG, hg, List.filter_cons] <;> omega

/-! ### Result fields in terms of the first-match functions -/

theorem calculateSnap_r_guides (st : AlignmentSystem) (dragged : NoteElem)
    (cands : List NoteElem) (x y : ℚ) (he : st.enabled = true) :
    (calculateSnap st dragged cands x y).2.guides =
      (scanOf st dragged cands x y).guides := by
  rw [calculateSnap_enabled st dragged cands x y he]

theorem calculateSnap_r_snapped (st : AlignmentSystem) (dragged : NoteElem)
    (cands : List NoteElem) (x y : ℚ) (he : st.enabled = true) :
    (calculateSnap st dragged cands x y).2.snapped =
      ((scanOf st dragged cands x y).snappedX
        || (scanOf st dragged cands x y).snappedY) := by
  rw [calculateSnap_enabled st dragged cands x y he]

theorem calculateSnap_r_deltaX (st : AlignmentSystem) (dragged : NoteElem)
    (cands : List NoteElem) (x y : ℚ) (he : st.enabled = true) :
    (calculateSnap st dragged cands x y).2.deltaX =
      (scanOf st dragged cands x y).snapX - x := by
  rw [calculateSnap_enabled st dragged cands x y he]

theorem calculateSnap_r_deltaY (st : AlignmentSystem) (dragged : NoteElem)
    (cands : List NoteElem) (x y : ℚ) (he : st.enabled = true) :
    (calculateSnap st dragged cands x y).2.deltaY =
      (scanOf st dragged cands x y).snapY - y := by
  rw [calculateSnap_enabled st dragged cands x y he]

theorem guides_isVG_eq (st : AlignmentSystem) (dragged : NoteElem)
    (cands : List NoteElem) (x y : ℚ) (he : st.enabled = true) :
    (calculateSnap st dragged cands x y).2.guides.filter isVG =
      (firstVerticalMatch st.snapThreshold dragged
        (draggedBoundsOf dragged x y) cands).elim [] (fun p => [p.2]) := by
  rw [calculateSnap_r_guides st dragged cands x y he]
  have hv := scanOf_vertical st dragged cands x y
  cases hm : firstVerticalMatch st.snapThreshold dragged
      (draggedBoundsOf dragged x y) cands with
  | none =>
      rw [hm] at hv
      simpa using congrArg (fun t => t.2.2) hv
  | some p =>
      obtain ⟨sx, g⟩ := p
      rw [hm] at hv
      simpa using congrArg (fun t => t.2.2) hv

theorem guides_isHG_eq (st : AlignmentSystem) (dragged : NoteElem)
    (cands : List NoteElem) (x y : ℚ) (he : st.enabled = true) :
    (calculateSnap st dragged cands x y).2.guides.filter isHG =
      (firstHorizontalMatch st.snapThreshold dragged
        (draggedBoundsOf dragged x y) cands).elim [] (fun p => [p.2]) := by
  rw [calculateSnap_r_guides st dragged cands x y he]
  have hv := scanOf_horizontal st dragged cands x y
  cases hm : firstHorizontalMatch st.snapThreshold dragged
      (draggedBoundsOf dragged x y) cands with
  | none =>
      rw [hm] at hv
      simpa using congrArg (fun t => t.2.2) hv
  | some p =>
      obtain ⟨sy, g⟩ := p
      rw [hm] at hv
      simpa using congrArg (fun t => t.2.2) hv

theorem snapped_eq (st : AlignmentSystem) (dragged : NoteElem)
    (cands : List NoteElem) (x y : ℚ) (he : st.enabled = true) :
    (calculateSnap st dragged cands x y).2.snapped =
      ((firstVerticalMatch st.snapThreshold dragged
          (draggedBoundsOf dragged x y) cands).isSome
        || (firstHorizontalMatch st.snapThreshold dragged
          (draggedBoundsOf dragged x y) cands).isSome) := by
  rw [calculateSnap_r_snapped st dragged cands x y he]
  have hv := scanOf_vertical st dragged cands x y
  have hh := scanOf_horizontal st dragged cands x y
  have hv1 := congrArg (fun t => t.1) hv
  have hh1 := congrArg (fun t => t.1) hh
  cases hmv : firstVerticalMatch st.snapThreshold dragged
      (draggedBoundsOf dragged x y) cands <;>
    cases hmh : firstHorizontalMatch st.snapThreshold dragged
      (draggedBoundsOf dragged x y) cands <;>
    rw [hmv] at hv1 <;> rw [hmh] at hh1 <;>
    simp_all

theorem deltaX_eq (st : AlignmentSystem) (dragged : NoteElem)
    (cands : List NoteElem) (x y : ℚ) (he : st.enabled = true) :
    (calculateSnap st dragged cands x y).2.deltaX =
      (firstVerticalMatch st.snapThreshold dragged
        (draggedBoundsOf dragged x y) cands).elim 0 (fun p => p.1 - x) := by
  rw [calculateSnap_r_deltaX st dragged cands x y he]
  have hv := scanOf_vertical st dragged cands x y
  have hv2 := congrArg (fun t => t.2.1) hv
  cases hmv : firstVerticalMatch st.snapThreshold dragged
      (draggedBoundsOf dragged x y) cands with
  | none =>
      rw [hmv] at hv2
      simp only at hv2
      rw [hv2]
      simp
  | some p =>
      obtain ⟨sx, g⟩ := p
      rw [hmv] at hv2
      simp only at hv2
      rw [hv2]
      simp

theorem deltaY_eq (st : AlignmentSystem) (dragged : NoteElem)
    (cands : List NoteElem) (x y : ℚ) (he : st.enabled = true) :
    (calculateSnap st dragged cands x y).2.deltaY =
      (firstHorizontalMatch st.snapThreshold dragged
        (draggedBoundsOf dragged x y) cands).elim 0 (fun p => p.1 - y) := by
  rw [calculateSnap_r_deltaY st dragged cands x y he]
  have hh := scanOf_horizontal st dragged cands x y
  have hh2 := congrArg (fun t => t.2.1) hh
  cases hmh : firstHorizontalMatch st.snapThreshold dragged
      (draggedBoundsOf dragged x y) cands with
  | none =>
      rw [hmh] at hh2
      simp only at hh2
      rw [hh2]
      simp
  | some p =>
      obtain ⟨sy, g⟩ := p
      rw [hmh] at hh2
      simp only at hh2
      rw [hh2]
      simp

theorem findSome_cons {α β : Type} (f : α → Option β) (a : α) (l : List α) :
    (a :: l).findSome? f =
      match f a with
      | some b => some b
      | none => l.findSome? f := rfl

/-! ### Concrete fixtures used by witnesses and counterexamples -/

/-- An 800x600 guides canvas with nothing drawn. -/
def cv0 : Canvas := ⟨800, 600, []⟩

/-- Fresh engine state: threshold 4 (the source default), no stored guides,
enabled. -/
def st0 : AlignmentSystem := ⟨4, [], cv0, true⟩

/-- Same state with snapping disabled. -/
def stOff : AlignmentSystem := ⟨4, [], cv0, false⟩

/-- The dragged note of the spec scenario: 80x40. -/
def drag0 : NoteElem := ⟨0, "drag", some 0, some 0, 80, 40⟩

/-- The neighbor of the spec scenario: left 100, top 50, 120x40. -/
def nbr1 : NoteElem := ⟨1, "n1", some 100, some 50, 120, 40⟩

/-- A candidate at left 100 (3px from a drag at 103), far away vertically. -/
def cA : NoteElem := ⟨1, "a", some 100, some 300, 30, 20⟩

/-- A candidate at left 104 (only 1px from a drag at 103), far away
vertically. -/
def cB : NoteElem := ⟨2, "b", some 104, some 300, 30, 20⟩

/-! ### Claims -/

/-- C1: with snapping enabled, the guide reported for each axis is the one
produced by the first candidate, in the supplied order (skipping the dragged
element), whose per-candidate check chain matches; within one candidate the
vertical chain tries left-left, right-right, left-right, right-left,
center-center in that fixed order (top/bottom analogues horizontally) and
the first check within threshold decides; hence when two candidates both
match on an axis, the earlier candidate in the supplied order is reported
even if the later one is numerically closer. -/
theorem C1_first_match_order (thr : ℚ) (gs : List AlignmentGuide) (cv : Canvas)
    (dragged : NoteElem) (cands : List NoteElem) (x y : ℚ) :
    ((calculateSnap ⟨thr, gs, cv, true⟩ dragged cands x y).2.guides.filter isVG =
        (firstVerticalMatch thr dragged (draggedBoundsOf dragged x y) cands).elim
          [] (fun p => [p.2]))
    ∧ ((calculateSnap ⟨thr, gs, cv, true⟩ dragged cands x y).2.guides.filter isHG =
        (firstHorizontalMatch thr dragged (draggedBoundsOf dragged x y) cands).elim
          [] (fun p => [p.2]))
    ∧ (∀ tb srcId, vMatch thr (draggedBoundsOf dragged x y) tb srcId =
        (firstVKind thr (draggedBoundsOf dragged x y) tb).map
          (vSnapData (draggedBoundsOf dragged x y) tb srcId))
    ∧ (∀ tb srcId, hMatch thr (draggedBoundsOf dragged x y) tb srcId =
        (firstHKind thr (draggedBoundsOf dragged x y) tb).map
          (hSnapData (draggedBoundsOf dragged x y) tb srcId))
    ∧ (∀ c1 c2 m1 m2, (c1.ref == dragged.ref) = false →
        vMatch thr (draggedBoundsOf dragged x y) (targetBoundsOf c1) c1.id = some m1 →
        vMatch thr (draggedBoundsOf dragged x y) (targetBoundsOf c2) c2.id = some m2 →
        (calculateSnap ⟨thr, gs, cv, true⟩ dragged [c1, c2] x y).2.guides.filter isVG
          = [m1.2]) := by
  refine ⟨?_, ?_, ?_, ?_, ?_⟩
  · simpa using guides_isVG_eq ⟨thr, gs, cv, true⟩ dragged cands x y rfl
  · simpa using guides_isHG_eq ⟨thr, gs, cv, true⟩ dragged cands x y rfl
  · intro tb srcId
    exact vMatch_eq_firstVKind thr (draggedBoundsOf dragged x y) tb srcId
  · intro tb srcId
    exact hMatch_eq_firstHKind thr (draggedBoundsOf dragged x y) tb srcId
  · intro c1 c2 m1 m2 h1 hv1 hv2
    have hfil : List.filter (fun n => !(n.ref == dragged.ref)) [c1, c2] =
        c1 :: List.filter (fun n => !(n.ref == dragged.ref)) [c2] := by
      simp [List.filter_cons, h1]
    have hfv : firstVerticalMatch thr dragged (draggedBoundsOf dragged x y)
        [c1, c2] = some m1 := by
      unfold firstVerticalMatch
      rw [hfil, findSome_cons, hv1]
    have h := guides_isVG_eq ⟨thr, gs, cv, true⟩ dragged [c1, c2] x y rfl
    simp only at h
    rw [hfv] at h
    simpa using h

/-- C1 witness: a drag at x = 103 against candidates at left 100 (first)
and left 104 (second, numerically closer): the reported vertical guide is
the first candidate's, at 100. -/
theorem C1_first_match_order_witness :
    ((calculateSnap st0 drag0 [cA, cB] 103 200).2.guides.filter isVG =
      [⟨GuideType.vertical, 100, 1, "a"⟩])
    ∧ |(draggedBoundsOf drag0 103 200).left - (targetBoundsOf cB).left| <
        |(draggedBoundsOf drag0 103 200).left - (targetBoundsOf cA).left| := by
  constructor
  · have h := (C1_first_match_order 4 [] cv0 drag0 [cA, cB] 103 200).2.2.2.2
      cA cB (100, ⟨GuideType.vertical, 100, 1, "a"⟩)
      ((104 : ℚ), ⟨GuideType.vertical, 104, 1, "b"⟩) rfl
      (by norm_num [vMatch, draggedBoundsOf, targetBoundsOf, parsedLeft,
        parsedTop, drag0, cA])
      (by norm_num [vMatch, draggedBoundsOf, targetBoundsOf, parsedLeft,
        parsedTop, drag0, cB])
    exact h
  · norm_num [draggedBoundsOf, targetBoundsOf, parsedLeft, drag0, cA, cB]

/-- C3: the end-to-end scenario of the spec: neighbor box (100, 50)-(220, 90),
dragged candidate box at (103, 200) of size 80x40, threshold 4: a
left-to-left vertical match at 100, deltaX = -3, no horizontal match,
deltaY = 0, exactly one guide, vertical at 100, sourced from the
neighbor. -/
theorem C3_scenario :
    (calculateSnap st0 drag0 [nbr1] 103 200).2 =
      { snapped := true
        deltaX := -3
        deltaY := 0
        guides := [⟨GuideType.vertical, 100, 1, "n1"⟩] }
    ∧ (targetBoundsOf nbr1).left = 100
    ∧ firstVKind 4 (draggedBoundsOf drag0 103 200) (targetBoundsOf nbr1) =
        some VKind.ll := by
  refine ⟨?_, ?_, ?_⟩
  · norm_num [calculateSnap, st0, cv0, drag0, nbr1, stepNote, vApply, hApply,
      vMatch, hMatch, draggedBoundsOf, targetBoundsOf, parsedLeft, parsedTop,
      renderGuides, guideDraw, List.foldl]
  · norm_num [targetBoundsOf, parsedLeft, nbr1]
  · norm_num [firstVKind, vKindOrder, vDiff, List.find?, draggedBoundsOf,
      targetBoundsOf, parsedLeft, parsedTop, drag0, nbr1]

/-- C5: when the engine is disabled or the candidate list is empty, the
returned SnapResult is the no-op result: nothing snapped, both deltas zero,
no guides. -/
theorem C5_noop (st : AlignmentSystem) (dragged : NoteElem)
    (cands : List NoteElem) (x y : ℚ)
    (h : st.enabled = false ∨ cands = []) :
    (calculateSnap st dragged cands x y).2 =
      { snapped := false, deltaX := 0, deltaY := 0, guides := [] } := by
  rcases h with he | hc
  · rw [calculateSnap_disabled st dragged cands x y he]
  · by_cases he : st.enabled = true
    · subst hc
      rw [calculateSnap_enabled st dragged [] x y he]
      simp [scanOf]
    · rw [calculateSnap_disabled st dragged cands x y (by simpa using he)]

/-- C5 witness: a disabled call on perfectly aligned boxes, and an enabled
call with no candidates, both return the no-op result. -/
theorem C5_noop_witness :
    (calculateSnap stOff drag0 [nbr1] 100 50).2 =
      { snapped := false, deltaX := 0, deltaY := 0, guides := [] }
    ∧ (calculateSnap st0 drag0 [] 103 200).2 =
      { snapped := false, deltaX := 0, deltaY := 0, guides := [] } :=
  ⟨C5_noop stOff drag0 [nbr1] 100 50 (Or.inl rfl),
   C5_noop st0 drag0 [] 103 200 (Or.inr rfl)⟩

/-- C9: clearGuides leaves no active guides, and running it twice from any
state is the same as running it once. -/
theorem C9_clearGuides_idempotent (st : AlignmentSystem) :
    (clearGuides st).guides = [] ∧
      clearGuides (clearGuides st) = clearGuides st := by
  simp [clearGuides]

/-- C10: a dragged note appearing among the candidates is skipped: the call
equals the same call with the dragged note filtered out, and every returned
guide is sourced from a candidate other than the dragged note. -/
theorem C10_dragged_skipped (st : AlignmentSystem) (dragged : NoteElem)
    (cands : List NoteElem) (x y : ℚ) :
    calculateSnap st dragged cands x y =
      calculateSnap st dragged
        (cands.filter (fun n => !(n.ref == dragged.ref))) x y
    ∧ ∀ g ∈ (calculateSnap st dragged cands x y).2.guides,
        ∃ n, n ∈ cands ∧ (n.ref == dragged.ref) = false ∧
          g.sourceId = n.id := by
  constructor
  · by_cases he : st.enabled = true
    · rw [calculateSnap_enabled st dragged cands x y he,
        calculateSnap_enabled st dragged
          (cands.filter (fun n => !(n.ref == dragged.ref))) x y he]
      have hs : scanOf st dragged cands x y =
          scanOf st dragged
            (cands.filter (fun n => !(n.ref == dragged.ref))) x y := by
        unfold scanOf
        exact foldl_skip_dragged st.snapThreshold dragged
          (draggedBoundsOf dragged x y) cands _
      rw [hs]
    · rw [calculateSnap_disabled st dragged cands x y (by simpa using he),
        calculateSnap_disabled st dragged
          (cands.filter (fun n => !(n.ref == dragged.ref))) x y
          (by simpa using he)]
  · intro g hg
    by_cases he : st.enabled = true
    · rw [calculateSnap_r_guides st dragged cands x y he] at hg
      unfold scanOf at hg
      rcases foldl_guides_sources st.snapThreshold dragged
          (draggedBoundsOf dragged x y) cands _ g hg with h0 | hex
      · simp at h0
      · exact hex
    · rw [calculateSnap_disabled st dragged cands x y (by simpa using he)]
        at hg
      simp at hg

/-- C10 witness: passing the dragged note itself among the candidates gives
the same call as without it, and the one returned guide is sourced from the
other candidate. -/
theorem C10_dragged_skipped_witness :
    calculateSnap st0 drag0 [drag0, nbr1] 103 200 =
      calculateSnap st0 drag0 [nbr1] 103 200
    ∧ ∃ n, n ∈ [drag0, nbr1] ∧ (n.ref == drag0.ref) = false ∧
        (⟨GuideType.vertical, 100, 1, "n1"⟩ : AlignmentGuide).sourceId = n.id := by
  have h := C10_dragged_skipped st0 drag0 [drag0, nbr1] 103 200
  have hfil : List.filter (fun n => !(n.ref == drag0.ref)) [drag0, nbr1] =
      [nbr1] := by
    simp [List.filter_cons, drag0, nbr1]
  constructor
  · have h1 := h.1
    rw [hfil] at h1
    exact h1
  · refine h.2 ⟨GuideType.vertical, 100, 1, "n1"⟩ ?_
    have h1 := h.1
    rw [hfil] at h1
    rw [h1]
    norm_num [calculateSnap, st0, cv0, drag0, nbr1, stepNote, vApply, hApply,
      vMatch, hMatch, draggedBoundsOf, targetBoundsOf, parsedLeft, parsedTop,
      renderGuides, guideDraw, List.foldl]

/-! ### C2: delta corrections -/

/-- Modelled from the spec: the correction that moves the dragged box's
matched coordinate exactly onto the neighbor's matched coordinate, per
vertical check kind (for left-to-left, `neighborLeft - draggedBox.left`,
and so on). -/
def specVDelta (db tb : NoteBounds) : VKind → ℚ
  | .ll => tb.left - db.left
  | .rr => tb.right - db.right
  | .lr => tb.right - db.left
  | .rl => tb.left - db.right
  | .cc => tb.centerX - db.centerX

/-- Modelled from the spec: the analogous horizontal corrections. -/
def specHDelta (db tb : NoteBounds) : HKind → ℚ
  | .tt => tb.top - db.top
  | .bb => tb.bottom - db.bottom
  | .tb => tb.bottom - db.top
  | .bt => tb.top - db.bottom
  | .cc => tb.centerY - db.centerY

theorem vSnapData_delta (dragged : NoteElem) (x y : ℚ) (tb : NoteBounds)
    (srcId : String) (k : VKind) :
    (vSnapData (draggedBoundsOf dragged x y) tb srcId k).1 - x =
      specVDelta (draggedBoundsOf dragged x y) tb k := by
  cases k <;> simp [vSnapData, specVDelta, draggedBoundsOf] <;> ring

theorem hSnapData_delta (dragged : NoteElem) (x y : ℚ) (tb : NoteBounds)
    (srcId : String) (k : HKind) :
    (hSnapData (draggedBoundsOf dragged x y) tb srcId k).1 - y =
      specHDelta (draggedBoundsOf dragged x y) tb k := by
  cases k <;> simp [hSnapData, specHDelta, draggedBoundsOf] <;> ring

/-- The dragged note of the C2 counterexample: 50x40, dragged at
(100, 500). -/
def dragA : NoteElem := ⟨0, "d", some 0, some 0, 50, 40⟩

/-- First candidate of the C2 counterexample: its right edge (153) is 3px
from the dragged box's right edge (150). -/
def nA : NoteElem := ⟨1, "a", some 10, some 300, 143, 40⟩

/-- Second candidate of the C2 counterexample: its left edge is exactly the
dragged box's left edge (100). -/
def nB : NoteElem := ⟨2, "b", some 100, some 300, 60, 40⟩

/-- C2 counterexample: the dragged box's left edge equals neighbor `nB`'s
left edge exactly, yet `deltaX = 3`, not 0 — the earlier candidate `nA`
claims the vertical axis with a right-to-right match first. -/
theorem C2_cex :
    (targetBoundsOf nB).left = (draggedBoundsOf dragA 100 500).left
    ∧ (calculateSnap st0 dragA [nA, nB] 100 500).2.snapped = true
    ∧ (calculateSnap st0 dragA [nA, nB] 100 500).2.deltaX = 3
    ∧ (calculateSnap st0 dragA [nA, nB] 100 500).2.deltaX ≠ 0 := by
  have hres : (calculateSnap st0 dragA [nA, nB] 100 500).2 =
      { snapped := true
        deltaX := 3
        deltaY := 0
        guides := [⟨GuideType.vertical, 153, 1, "a"⟩] } := by
    norm_num [calculateSnap, st0, cv0, dragA, nA, nB, stepNote, vApply, hApply,
      vMatch, hMatch, draggedBoundsOf, targetBoundsOf, parsedLeft, parsedTop,
      renderGuides, guideDraw, List.foldl]
  refine ⟨by norm_num [targetBoundsOf, parsedLeft, nB, dragA, draggedBoundsOf],
    ?_, ?_, ?_⟩
  all_goals rw [hres]
  all_goals norm_num

/-- C2 (amended): for every match, the returned delta is exactly the
correction that moves the dragged box's matched coordinate onto the
neighbor's matched coordinate (per check kind), and zero when the axis has
no match; the zero-delta-when-aligned consequence holds for the candidate
that wins the axis: with a single neighbor whose left edge equals the
dragged box's left edge, the call snaps on x with `deltaX = 0` (an earlier
candidate that matches first can otherwise make `deltaX` nonzero). -/
theorem C2_delta_correction (thr : ℚ) (gs : List AlignmentGuide) (cv : Canvas)
    (dragged : NoteElem) (cands : List NoteElem) (x y : ℚ) :
    ((calculateSnap ⟨thr, gs, cv, true⟩ dragged cands x y).2.deltaX =
      (firstVerticalMatch thr dragged (draggedBoundsOf dragged x y) cands).elim 0
        (fun p => p.1 - x))
    ∧ ((calculateSnap ⟨thr, gs, cv, true⟩ dragged cands x y).2.deltaY =
      (firstHorizontalMatch thr dragged (draggedBoundsOf dragged x y) cands).elim 0
        (fun p => p.1 - y))
    ∧ (∀ tb srcId k, (vSnapData (draggedBoundsOf dragged x y) tb srcId k).1 - x =
        specVDelta (draggedBoundsOf dragged x y) tb k)
    ∧ (∀ tb srcId k, (hSnapData (draggedBoundsOf dragged x y) tb srcId k).1 - y =
        specHDelta (draggedBoundsOf dragged x y) tb k)
    ∧ (∀ n : NoteElem, 0 ≤ thr → (n.ref == dragged.ref) = false →
        (targetBoundsOf n).left = x →
        ((calculateSnap ⟨thr, gs, cv, true⟩ dragged [n] x y).2.snapped = true
          ∧ (calculateSnap ⟨thr, gs, cv, true⟩ dragged [n] x y).2.guides.filter isVG
              = [⟨GuideType.vertical, x, 1, n.id⟩]
          ∧ (calculateSnap ⟨thr, gs, cv, true⟩ dragged [n] x y).2.deltaX = 0)) := by
  refine ⟨?_, ?_, ?_, ?_, ?_⟩
  · simpa using deltaX_eq ⟨thr, gs, cv, true⟩ dragged cands x y rfl
  · simpa using deltaY_eq ⟨thr, gs, cv, true⟩ dragged cands x y rfl
  · intro tb srcId k
    exact vSnapData_delta dragged x y tb srcId k
  · intro tb srcId k
    exact hSnapData_delta dragged x y tb srcId k
  · intro n hthr href hleft
    have hm : vMatch thr (draggedBoundsOf dragged x y) (targetBoundsOf n) n.id =
        some (x, ⟨GuideType.vertical, x, 1, n.id⟩) := by
      unfold vMatch
      have h0 : |(draggedBoundsOf dragged x y).left - (targetBoundsOf n).left|
          ≤ thr := by
        rw [hleft]
        simpa [draggedBoundsOf] using hthr
      rw [if_pos h0, hleft]
    have hfil : List.filter (fun m => !(m.ref == dragged.ref)) [n] = [n] := by
      simp [List.filter_cons, href]
    have hfv : firstVerticalMatch thr dragged (draggedBoundsOf dragged x y) [n]
        = some (x, ⟨GuideType.vertical, x, 1, n.id⟩) := by
      unfold firstVerticalMatch
      rw [hfil, findSome_cons, hm]
    refine ⟨?_, ?_, ?_⟩
    · have h := snapped_eq ⟨thr, gs, cv, true⟩ dragged [n] x y rfl
      simp only at h
      rw [hfv] at h
      simpa using h
    · have h := guides_isVG_eq ⟨thr, gs, cv, true⟩ dragged [n] x y rfl
      simp only at h
      rw [hfv] at h
      simpa using h
    · have h := deltaX_eq ⟨thr, gs, cv, true⟩ dragged [n] x y rfl
      simp only at h
      rw [hfv] at h
      simpa using h

/-- C2 witness: a single neighbor whose left edge is exactly the dragged
box's left edge (103): the call snaps on x with `deltaX = 0`. -/
theorem C2_delta_correction_witness :
    (calculateSnap ⟨4, [], cv0, true⟩ drag0
      [⟨1, "w", some 103, some 50, 120, 40⟩] 103 200).2.snapped = true
    ∧ (calculateSnap ⟨4, [], cv0, true⟩ drag0
      [⟨1, "w", some 103, some 50, 120, 40⟩] 103 200).2.deltaX = 0 := by
  have h := (C2_delta_correction 4 [] cv0 drag0
      [⟨1, "w", some 103, some 50, 120, 40⟩] 103 200).2.2.2.2
    ⟨1, "w", some 103, some 50, 120, 40⟩ (by norm_num) rfl
    (by norm_num [targetBoundsOf, parsedLeft])
  exact ⟨h.1, h.2.2⟩

/-! ### C4: threshold boundary -/

/-- Dragged note of the C4 counterexample: 10x10 at (0, 0). -/
def d4 : NoteElem := ⟨0, "d", some 0, some 0, 10, 10⟩

/-- Candidate of the C4 counterexample: left edge 5 (= threshold + 1 from
the dragged left edge 0) but right edge 10, flush with the dragged right
edge. -/
def a4 : NoteElem := ⟨1, "a", some 5, some 1000, 5, 5⟩

/-- C4 counterexample: two notes whose left edges differ by exactly
`snapThreshold + 1` pixels, yet `calculateSnap` does report a vertical
match, because the right-to-right comparison is within threshold. -/
theorem C4_cex :
    (targetBoundsOf a4).left - (draggedBoundsOf d4 0 0).left =
      st0.snapThreshold + 1
    ∧ (calculateSnap st0 d4 [a4] 0 0).2.guides.filter isVG =
        [⟨GuideType.vertical, 10, 1, "a"⟩]
    ∧ (calculateSnap st0 d4 [a4] 0 0).2.snapped = true := by
  have hres : (calculateSnap st0 d4 [a4] 0 0).2 =
      { snapped := true
        deltaX := 0
        deltaY := 0
        guides := [⟨GuideType.vertical, 10, 1, "a"⟩] } := by
    norm_num [calculateSnap, st0, cv0, d4, a4, stepNote, vApply, hApply,
      vMatch, hMatch, draggedBoundsOf, targetBoundsOf, parsedLeft, parsedTop,
      renderGuides, guideDraw, List.foldl, abs_le]
  refine ⟨by norm_num [targetBoundsOf, parsedLeft, a4, d4, draggedBoundsOf, st0],
    ?_, ?_⟩
  all_goals rw [hres]
  all_goals simp [isVG]

/-- C4 (amended): the threshold is inclusive: a compared coordinate pair at
distance exactly `snapThreshold` produces a match on that axis; and with
the left edges at distance `snapThreshold + 1`, provided no other vertical
comparison of the pair is within threshold, no vertical match is
reported. -/
theorem C4_threshold_boundary (thr : ℚ) (gs : List AlignmentGuide)
    (cv : Canvas) (dragged n : NoteElem) (x y : ℚ) :
    ((n.ref == dragged.ref) = false →
      (∃ k, vDiff (draggedBoundsOf dragged x y) (targetBoundsOf n) k = thr) →
      (calculateSnap ⟨thr, gs, cv, true⟩ dragged [n] x y).2.guides.filter isVG
        ≠ [])
    ∧ ((n.ref == dragged.ref) = false →
      (∃ k, hDiff (draggedBoundsOf dragged x y) (targetBoundsOf n) k = thr) →
      (calculateSnap ⟨thr, gs, cv, true⟩ dragged [n] x y).2.guides.filter isHG
        ≠ [])
    ∧ (vDiff (draggedBoundsOf dragged x y) (targetBoundsOf n) VKind.ll = thr + 1 →
      (∀ k, k ≠ VKind.ll →
        thr < vDiff (draggedBoundsOf dragged x y) (targetBoundsOf n) k) →
      ((calculateSnap ⟨thr, gs, cv, true⟩ dragged [n] x y).2.guides.filter isVG
          = []
        ∧ (calculateSnap ⟨thr, gs, cv, true⟩ dragged [n] x y).2.deltaX = 0)) := by
  refine ⟨?_, ?_, ?_⟩
  · rintro href ⟨k, hk⟩
    have hsome : (vMatch thr (draggedBoundsOf dragged x y) (targetBoundsOf n)
        n.id).isSome = true := by
      rw [vMatch_isSome_iff]
      exact ⟨k, le_of_eq hk⟩
    obtain ⟨p, hp⟩ := Option.isSome_iff_exists.mp hsome
    have hfil : List.filter (fun m => !(m.ref == dragged.ref)) [n] = [n] := by
      simp [List.filter_cons, href]
    have hfv : firstVerticalMatch thr dragged (draggedBoundsOf dragged x y) [n]
        = some p := by
      unfold firstVerticalMatch
      rw [hfil, findSome_cons, hp]
    have h := guides_isVG_eq ⟨thr, gs, cv, true⟩ dragged [n] x y rfl
    simp only at h
    rw [hfv] at h
    simp [h]
  · rintro href ⟨k, hk⟩
    have hsome : (hMatch thr (draggedBoundsOf dragged x y) (targetBoundsOf n)
        n.id).isSome = true := by
      rw [hMatch_isSome_iff]
      exact ⟨k, le_of_eq hk⟩
    obtain ⟨p, hp⟩ := Option.isSome_iff_exists.mp hsome
    have hfil : List.filter (fun m => !(m.ref == dragged.ref)) [n] = [n] := by
      simp [List.filter_cons, href]
    have hfh : firstHorizontalMatch thr dragged (draggedBoundsOf dragged x y)
        [n] = some p := by
      unfold firstHorizontalMatch
      rw [hfil, findSome_cons, hp]
    have h := guides_isHG_eq ⟨thr, gs, cv, true⟩ dragged [n] x y rfl
    simp only at h
    rw [hfh] at h
    simp [h]
  · intro hll hothers
    have h1 : ¬(|(draggedBoundsOf dragged x y).left - (targetBoundsOf n).left|
        ≤ thr) := by
      have : vDiff (draggedBoundsOf dragged x y) (targetBoundsOf n) VKind.ll =
          |(draggedBoundsOf dragged x y).left - (targetBoundsOf n).left| := rfl
      rw [this] at hll
      rw [hll]
      intro hcon
      linarith
    have h2 := not_le.mpr (hothers VKind.rr (by simp))
    have h3 := not_le.mpr (hothers VKind.lr (by simp))
    have h4 := not_le.mpr (hothers VKind.rl (by simp))
    have h5 := not_le.mpr (hothers VKind.cc (by simp))
    simp only [vDiff] at h2 h3 h4 h5
    have hnone : vMatch thr (draggedBoundsOf dragged x y) (targetBoundsOf n)
        n.id = none := by
      unfold vMatch
      simp [h1, h2, h3, h4, h5]
    have hfv : firstVerticalMatch thr dragged (draggedBoundsOf dragged x y) [n]
        = none := by
      unfold firstVerticalMatch
      by_cases hb : (n.ref == dragged.ref) = true
      · have hfil : List.filter (fun m => !(m.ref == dragged.ref)) [n] = [] := by
          simp [List.filter_cons, hb]
        rw [hfil]
        rfl
      · have hfil : List.filter (fun m => !(m.ref == dragged.ref)) [n] = [n] := by
          simp [List.filter_cons, hb]
        rw [hfil, findSome_cons, hnone]
        rfl
    constructor
    · have h := guides_isVG_eq ⟨thr, gs, cv, true⟩ dragged [n] x y rfl
      simp only at h
      rw [hfv] at h
      simpa using h
    · have h := deltaX_eq ⟨thr, gs, cv, true⟩ dragged [n] x y rfl
      simp only at h
      rw [hfv] at h
      simpa using h

/-- C4 witness: left edges exactly 4 apart (the threshold) do match; left
edges 5 apart with every other vertical comparison far do not. -/
theorem C4_threshold_boundary_witness :
    ((calculateSnap ⟨4, [], cv0, true⟩ drag0 [nbr1] 104 200).2.guides.filter isVG
      ≠ [])
    ∧ ((calculateSnap ⟨4, [], cv0, true⟩ drag0 [nbr1] 105 200).2.guides.filter isVG
        = []
      ∧ (calculateSnap ⟨4, [], cv0, true⟩ drag0 [nbr1] 105 200).2.deltaX = 0) := by
  constructor
  · exact (C4_threshold_boundary 4 [] cv0 drag0 nbr1 104 200).1 rfl
      ⟨VKind.ll, by norm_num [vDiff, draggedBoundsOf, targetBoundsOf,
        parsedLeft, drag0, nbr1]⟩
  · exact (C4_threshold_boundary 4 [] cv0 drag0 nbr1 105 200).2.2
      (by norm_num [vDiff, draggedBoundsOf, targetBoundsOf, parsedLeft,
        drag0, nbr1])
      (by
        intro k hk
        cases k
        · exact absurd rfl hk
        · norm_num [vDiff, draggedBoundsOf, targetBoundsOf, parsedLeft,
            parsedTop, drag0, nbr1]
        · norm_num [vDiff, draggedBoundsOf, targetBoundsOf, parsedLeft,
            parsedTop, drag0, nbr1]
        · norm_num [vDiff, draggedBoundsOf, targetBoundsOf, parsedLeft,
            parsedTop, drag0, nbr1]
        · norm_num [vDiff, draggedBoundsOf, targetBoundsOf, parsedLeft,
            parsedTop, drag0, nbr1])

/-! ### C6: side effects of calculateSnap -/

/-- Engine state holding a stale guide from an earlier frame. -/
def st6 : AlignmentSystem := ⟨4, [⟨GuideType.horizontal, 7, 1, "old"⟩], cv0, true⟩

/-- C6 counterexample: a snapping call changes the engine state — it
overwrites the stored guide list and draws on the canvas. -/
theorem C6_cex :
    (calculateSnap st6 drag0 [nbr1] 103 200).1 ≠ st6
    ∧ (calculateSnap st6 drag0 [nbr1] 103 200).1.canvas.content ≠
        st6.canvas.content := by
  have hpost : (calculateSnap st6 drag0 [nbr1] 103 200).1 =
      ⟨4, [⟨GuideType.vertical, 100, 1, "n1"⟩],
        ⟨800, 600, [DrawCmd.vline 100 600]⟩, true⟩ := by
    norm_num [calculateSnap, st6, cv0, drag0, nbr1, stepNote, vApply, hApply,
      vMatch, hMatch, draggedBoundsOf, targetBoundsOf, parsedLeft, parsedTop,
      renderGuides, guideDraw, List.foldl]
  rw [hpost]
  constructor
  · intro hcontra
    have hc := congrArg (fun s => s.canvas.content) hcontra
    simp [st6, cv0] at hc
  · intro hcontra
    simp [st6, cv0] at hcontra

/-- C6 (amended): an enabled `calculateSnap` call is a deterministic
computation over the snapshot but is not free of side effects on the
engine: it keeps the configuration (threshold, enabled flag) and the canvas
dimensions, overwrites the stored guide list with the newly computed
guides, and — exactly when something snapped — redraws the canvas with
those guides; only applying `deltaX`/`deltaY` to the note positions is left
to the caller. -/
theorem C6_state_transition (thr : ℚ) (gs : List AlignmentGuide) (cv : Canvas)
    (dragged : NoteElem) (cands : List NoteElem) (x y : ℚ) :
    ((calculateSnap ⟨thr, gs, cv, true⟩ dragged cands x y).1.snapThreshold = thr)
    ∧ ((calculateSnap ⟨thr, gs, cv, true⟩ dragged cands x y).1.enabled = true)
    ∧ ((calculateSnap ⟨thr, gs, cv, true⟩ dragged cands x y).1.guides =
        (calculateSnap ⟨thr, gs, cv, true⟩ dragged cands x y).2.guides)
    ∧ ((calculateSnap ⟨thr, gs, cv, true⟩ dragged cands x y).1.canvas.width =
        cv.width)
    ∧ ((calculateSnap ⟨thr, gs, cv, true⟩ dragged cands x y).1.canvas.height =
        cv.height)
    ∧ ((calculateSnap ⟨thr, gs, cv, true⟩ dragged cands x y).1.canvas.content =
        (if (calculateSnap ⟨thr, gs, cv, true⟩ dragged cands x y).2.snapped = true
         then (calculateSnap ⟨thr, gs, cv, true⟩ dragged cands x y).2.guides.map
           (guideDraw cv)
         else cv.content)) := by
  rw [calculateSnap_enabled ⟨thr, gs, cv, true⟩ dragged cands x y rfl]
  by_cases hs : ((scanOf ⟨thr, gs, cv, true⟩ dragged cands x y).snappedX
      || (scanOf ⟨thr, gs, cv, true⟩ dragged cands x y).snappedY) = true
  · simp [hs]
  · have hs2 : ((scanOf ⟨thr, gs, cv, true⟩ dragged cands x y).snappedX
        || (scanOf ⟨thr, gs, cv, true⟩ dragged cands x y).snappedY) = false := by
      simpa using hs
    simp [hs2]

/-! ### C7: what the result reports per axis -/

/-- A candidate producing a horizontal match only, for a drag at
(103, 200): its top (203) is 3px away, its vertical coordinates are far. -/
def nbrH : NoteElem := ⟨3, "h", some 400, some 203, 50, 40⟩

/-- C7 counterexample: the returned record carries one combined `snapped`
flag, not per-axis flags: an x-only match and a y-only match return the
same flag value, the axis being recoverable only from the guides. -/
theorem C7_cex :
    (calculateSnap st0 drag0 [nbr1] 103 200).2.snapped =
      (calculateSnap st0 drag0 [nbrH] 103 200).2.snapped
    ∧ (calculateSnap st0 drag0 [nbr1] 103 200).2.guides.filter isHG = []
    ∧ (calculateSnap st0 drag0 [nbr1] 103 200).2.guides.filter isVG ≠ []
    ∧ (calculateSnap st0 drag0 [nbrH] 103 200).2.guides.filter isVG = []
    ∧ (calculateSnap st0 drag0 [nbrH] 103 200).2.guides.filter isHG ≠ [] := by
  have h1 : (calculateSnap st0 drag0 [nbr1] 103 200).2 =
      { snapped := true
        deltaX := -3
        deltaY := 0
        guides := [⟨GuideType.vertical, 100, 1, "n1"⟩] } := by
    norm_num [calculateSnap, st0, cv0, drag0, nbr1, stepNote, vApply, hApply,
      vMatch, hMatch, draggedBoundsOf, targetBoundsOf, parsedLeft, parsedTop,
      renderGuides, guideDraw, List.foldl, abs_le]
  have h2 : (calculateSnap st0 drag0 [nbrH] 103 200).2 =
      { snapped := true
        deltaX := 0
        deltaY := 3
        guides := [⟨GuideType.horizontal, 203, 1, "h"⟩] } := by
    norm_num [calculateSnap, st0, cv0, drag0, nbrH, stepNote, vApply, hApply,
      vMatch, hMatch, draggedBoundsOf, targetBoundsOf, parsedLeft, parsedTop,
      renderGuides, guideDraw, List.foldl, abs_le]
  rw [h1, h2]
  refine ⟨rfl, ?_, ?_, ?_, ?_⟩ <;> simp [isVG, isHG]

/-- C7 (amended): the result's `snapped` flag is the disjunction of the
per-axis outcomes (so by itself it does not tell the axes apart); the
per-axis outcome is reported through the guides: at most one vertical and
at most one horizontal guide, exactly one per axis that matched, and a
vertical plus a horizontal match in the same call give a guide list of
length two. -/
theorem C7_guides_per_axis (thr : ℚ) (gs : List AlignmentGuide) (cv : Canvas)
    (dragged : NoteElem) (cands : List NoteElem) (x y : ℚ) :
    ((calculateSnap ⟨thr, gs, cv, true⟩ dragged cands x y).2.snapped =
      ((firstVerticalMatch thr dragged (draggedBoundsOf dragged x y) cands).isSome
        || (firstHorizontalMatch thr dragged (draggedBoundsOf dragged x y)
          cands).isSome))
    ∧ ((calculateSnap ⟨thr, gs, cv, true⟩ dragged cands x y).2.guides.filter isVG =
        (firstVerticalMatch thr dragged (draggedBoundsOf dragged x y) cands).elim
          [] (fun p => [p.2]))
    ∧ ((calculateSnap ⟨thr, gs, cv, true⟩ dragged cands x y).2.guides.filter isHG =
        (firstHorizontalMatch thr dragged (draggedBoundsOf dragged x y) cands).elim
          [] (fun p => [p.2]))
    ∧ (((calculateSnap ⟨thr, gs, cv, true⟩ dragged cands x y).2.guides.filter
        isVG).length ≤ 1)
    ∧ (((calculateSnap ⟨thr, gs, cv, true⟩ dragged cands x y).2.guides.filter
        isHG).length ≤ 1)
    ∧ ((calculateSnap ⟨thr, gs, cv, true⟩ dragged cands x y).2.guides.length =
        ((calculateSnap ⟨thr, gs, cv, true⟩ dragged cands x y).2.guides.filter
          isVG).length +
        ((calculateSnap ⟨thr, gs, cv, true⟩ dragged cands x y).2.guides.filter
          isHG).length)
    ∧ ((firstVerticalMatch thr dragged (draggedBoundsOf dragged x y)
          cands).isSome = true →
        (firstHorizontalMatch thr dragged (draggedBoundsOf dragged x y)
          cands).isSome = true →
        (calculateSnap ⟨thr, gs, cv, true⟩ dragged cands x y).2.guides.length
          = 2) := by
  have hvg := guides_isVG_eq ⟨thr, gs, cv, true⟩ dragged cands x y rfl
  have hhg := guides_isHG_eq ⟨thr, gs, cv, true⟩ dragged cands x y rfl
  have hsn := snapped_eq ⟨thr, gs, cv, true⟩ dragged cands x y rfl
  simp only at hvg hhg hsn
  refine ⟨hsn, hvg, hhg, ?_, ?_, ?_, ?_⟩
  · rw [hvg]
    cases hfv : firstVerticalMatch thr dragged (draggedBoundsOf dragged x y)
      cands <;> simp
  · rw [hhg]
    cases hfh : firstHorizontalMatch thr dragged (draggedBoundsOf dragged x y)
      cands <;> simp
  · exact (length_filter_vg_add_hg
      (calculateSnap ⟨thr, gs, cv, true⟩ dragged cands x y).2.guides).symm
  · intro hfvs hfhs
    obtain ⟨p, hp⟩ := Option.isSome_iff_exists.mp hfvs
    obtain ⟨q, hq⟩ := Option.isSome_iff_exists.mp hfhs
    have hlen := length_filter_vg_add_hg
      (calculateSnap ⟨thr, gs, cv, true⟩ dragged cands x y).2.guides
    rw [hvg, hhg, hp, hq] at hlen
    simpa using hlen.symm

/-- C7 witness: a vertical match from one neighbor and a horizontal match
from another in the same call give exactly two guides. -/
theorem C7_guides_per_axis_witness :
    (calculateSnap ⟨4, [], cv0, true⟩ drag0 [nbr1, nbrH] 103 200).2.guides.length
      = 2 := by
  have hfv : firstVerticalMatch 4 drag0 (draggedBoundsOf drag0 103 200)
      [nbr1, nbrH] =
      some (100, ⟨GuideType.vertical, 100, 1, "n1"⟩) := by
    unfold firstVerticalMatch
    have hfil : List.filter (fun m => !(m.ref == drag0.ref)) [nbr1, nbrH] =
        [nbr1, nbrH] := by
      simp [List.filter_cons, drag0, nbr1, nbrH]
    rw [hfil, findSome_cons]
    norm_num [vMatch, draggedBoundsOf, targetBoundsOf, parsedLeft, parsedTop,
      drag0, nbr1]
  have hfh : firstHorizontalMatch 4 drag0 (draggedBoundsOf drag0 103 200)
      [nbr1, nbrH] =
      some (203, ⟨GuideType.horizontal, 203, 1, "h"⟩) := by
    unfold firstHorizontalMatch
    have hfil : List.filter (fun m => !(m.ref == drag0.ref)) [nbr1, nbrH] =
        [nbr1, nbrH] := by
      simp [List.filter_cons, drag0, nbr1, nbrH]
    rw [hfil, findSome_cons]
    have hn1 : hMatch 4 (draggedBoundsOf drag0 103 200) (targetBoundsOf nbr1)
        nbr1.id = none := by
      norm_num [hMatch, draggedBoundsOf, targetBoundsOf, parsedLeft, parsedTop,
        drag0, nbr1, abs_le]
    rw [hn1, findSome_cons]
    norm_num [hMatch, draggedBoundsOf, targetBoundsOf, parsedLeft, parsedTop,
      drag0, nbrH, abs_le]
  exact (C7_guides_per_axis 4 [] cv0 drag0 [nbr1, nbrH] 103 200).2.2.2.2.2.2
    (by rw [hfv]; rfl) (by rw [hfh]; rfl)

/-! ### C8: non-finite candidate coordinates -/

/-- Dragged note of the C8 counterexample: 10x10, dragged to (2, 500). -/
def d8 : NoteElem := ⟨0, "d", some 0, some 0, 10, 10⟩

/-- A candidate whose `style.left` does not parse (`parseInt` gives `NaN`),
with a far-away top. -/
def bad8 : NoteElem := ⟨1, "bad", none, some 1000, 5, 5⟩

/-- C8 counterexample: a candidate whose left position parses to `NaN` is
not excluded: `parseInt(...) || 0` turns the coordinate into 0, and the
dragged box at x = 2 snaps to it, producing a guide sourced from that
candidate. -/
theorem C8_cex :
    bad8.styleLeft = none
    ∧ (calculateSnap st0 d8 [bad8] 2 500).2.guides =
        [⟨GuideType.vertical, 0, 1, "bad"⟩]
    ∧ (calculateSnap st0 d8 [bad8] 2 500).2.snapped = true
    ∧ (calculateSnap st0 d8 [bad8] 2 500).2.deltaX = -2 := by
  have hres : (calculateSnap st0 d8 [bad8] 2 500).2 =
      { snapped := true
        deltaX := -2
        deltaY := 0
        guides := [⟨GuideType.vertical, 0, 1, "bad"⟩] } := by
    norm_num [calculateSnap, st0, cv0, d8, bad8, stepNote, vApply, hApply,
      vMatch, hMatch, draggedBoundsOf, targetBoundsOf, parsedLeft, parsedTop,
      renderGuides, guideDraw, List.foldl, abs_le]
  rw [hres]
  exact ⟨rfl, rfl, rfl, rfl⟩

theorem stepNote_congr (thr : ℚ) (dr : NoteElem) (db : NoteBounds)
    (acc : ScanAcc) (n1 n2 : NoteElem) (hr : n1.ref = n2.ref)
    (hid : n1.id = n2.id) (htb : targetBoundsOf n1 = targetBoundsOf n2) :
    stepNote thr dr db acc n1 = stepNote thr dr db acc n2 := by
  unfold stepNote vApply hApply
  rw [hr, hid, htb]

/-- C8 (amended): a candidate whose `style.left` (or `style.top`) parses to
`NaN` behaves exactly as if that coordinate were 0: the `|| 0` coercion
happens before any comparison, so no non-finite value reaches the deltas or
guide positions, but matches and guides can be derived from such a
candidate at the coerced coordinate. -/
theorem C8_nan_coerced_to_zero (st : AlignmentSystem) (dragged : NoteElem)
    (pre post : List NoteElem) (r : Nat) (nid : String)
    (sL sT : Option Int) (w h x y : ℚ) :
    calculateSnap st dragged (pre ++ ⟨r, nid, none, sT, w, h⟩ :: post) x y =
      calculateSnap st dragged (pre ++ ⟨r, nid, some 0, sT, w, h⟩ :: post) x y
    ∧ calculateSnap st dragged (pre ++ ⟨r, nid, sL, none, w, h⟩ :: post) x y =
      calculateSnap st dragged (pre ++ ⟨r, nid, sL, some 0, w, h⟩ :: post) x y := by
  have key : ∀ n1 n2 : NoteElem, n1.ref = n2.ref → n1.id = n2.id →
      targetBoundsOf n1 = targetBoundsOf n2 →
      calculateSnap st dragged (pre ++ n1 :: post) x y =
        calculateSnap st dragged (pre ++ n2 :: post) x y := by
    intro n1 n2 hr hid htb
    by_cases he : st.enabled = true
    · have hs : scanOf st dragged (pre ++ n1 :: post) x y =
          scanOf st dragged (pre ++ n2 :: post) x y := by
        unfold scanOf
        rw [List.foldl_append, List.foldl_append]
        simp only [List.foldl_cons]
        rw [stepNote_congr st.snapThreshold dragged
          (draggedBoundsOf dragged x y) _ n1 n2 hr hid htb]
      rw [calculateSnap_enabled st dragged (pre ++ n1 :: post) x y he,
        calculateSnap_enabled st dragged (pre ++ n2 :: post) x y he, hs]
    · rw [calculateSnap_disabled st dragged (pre ++ n1 :: post) x y
          (by simpa using he),
        calculateSnap_disabled st dragged (pre ++ n2 :: post) x y
          (by simpa using he)]
  constructor
  · exact key ⟨r, nid, none, sT, w, h⟩ ⟨r, nid, some 0, sT, w, h⟩ rfl rfl rfl
  · exact key ⟨r, nid, sL, none, w, h⟩ ⟨r, nid, sL, some 0, w, h⟩ rfl rfl rfl

end Anywhere
